import Mathlib

/-!
Verification of the launch-configuration resolver in
`nuturtle_description/launch/load_one.launch.py`.

The launch file declares three arguments (`use_jsp`, `use_rviz`, `color`),
one derived configuration value (`rviz_color`), and four candidate nodes
(joint_state_publisher_gui, joint_state_publisher, robot_state_publisher,
rviz2), three of them gated by conditions.  The declarations below embed
the launch file; the resolution engine itself (argument defaulting,
`choices` validation, condition filtering) is part of the external launch
framework and is modelled from the spec where noted.

External collaborators are parameters of the model:
* `share` — the string that `FindPackageShare("nuturtle_description")`
  resolves to (an opaque package-asset lookup);
* `cmd` — the external templating engine, mapping a full command line to
  its captured standard output (an opaque pure function).
-/

/-- A process-start specification, as assembled from one `Node` action:
executable identity (`package`/`executable`), isolation namespace `ns`,
a parameter mapping and a positional argument list. -/
structure ProcessSpec where
  package : String
  executable : String
  ns : String
  parameters : List (String × String)
  arguments : List String
deriving Repr, DecidableEq

/-- The flat input mapping supplied by the caller: an optional string
override per declared argument; `none` means the declared default is
taken. -/
structure InputMapping where
  use_jsp : Option String
  use_rviz : Option String
  color : Option String
deriving Repr, DecidableEq

/-- The three argument values after defaulting.  Defaults come from the
three `DeclareLaunchArgument` actions: `use_jsp = "gui"`,
`use_rviz = "true"`, `color = "purple"`. -/
structure ResolvedArgs where
  use_jsp : String
  use_rviz : String
  color : String
deriving Repr, DecidableEq

/-- Modelled from the spec: unset keys of the input mapping take each
argument's declared default (`DeclareLaunchArgument` `default_value`). -/
def resolvedArgs (m : InputMapping) : ResolvedArgs :=
  { use_jsp := m.use_jsp.getD "gui"
    use_rviz := m.use_rviz.getD "true"
    color := m.color.getD "purple" }

/-- The `choices` list of the `color` argument declaration, verbatim from
the launch file. -/
def colorChoices : List String :=
  ["red", "green", "blue", "purple", "cyan", "magenta", "yellow", ""]

/-- Whether a string starts with the path separator. -/
def startsWithSep (s : String) : Bool :=
  match s.data with
  | [] => false
  | c :: _ => c = '/'

/-- Whether a string ends with the path separator. -/
def endsWithSep (s : String) : Bool :=
  match s.data.getLast? with
  | some c => c = '/'
  | none => false

/-- `os.path.join` on two path components (POSIX), as performed by
`PathJoinSubstitution` on the two resolved texts: an absolute second
component replaces the first; otherwise the components are joined with a
separator, which is omitted when the first component is empty or already
ends with the separator. -/
def pathJoin2 (a b : String) : String :=
  if startsWithSep b then b
  else if a = "" ∨ endsWithSep a then a ++ b
  else a ++ "/" ++ b

/-- `os.path.join` on three path components. -/
def pathJoin3 (a b c : String) : String :=
  pathJoin2 (pathJoin2 a b) c

/-- The `rviz_color` configuration set by `SetLaunchConfiguration`: the
concatenation of the performed substitutions
`[FindPackageShare("nuturtle_description"), "/config/basic_", color,
".rviz"]`. -/
def rviz_color (share color : String) : String :=
  share ++ "/config/basic_" ++ color ++ ".rviz"

/-- The full command line assembled by the `Command` substitution for the
`robot_description` parameter: `"xacro "`, the joined template path, and
the `color:=` substitution token. -/
def xacroCommand (share color : String) : String :=
  "xacro " ++ pathJoin3 share "urdf" "turtlebot3_burger.urdf.xacro" ++
    " color:=" ++ color

/-- The joint-state-GUI candidate node (`joint_state_publisher_gui`),
namespaced by the resolved color. -/
def jspGuiNode (color : String) : ProcessSpec :=
  { package := "joint_state_publisher_gui"
    executable := "joint_state_publisher_gui"
    ns := color
    parameters := []
    arguments := [] }

/-- The joint-state-plain candidate node (`joint_state_publisher`),
namespaced by the resolved color. -/
def jspNode (color : String) : ProcessSpec :=
  { package := "joint_state_publisher"
    executable := "joint_state_publisher"
    ns := color
    parameters := []
    arguments := [] }

/-- The unconditional state-publisher node (`robot_state_publisher`).
Its `frame_prefix` parameter is `PathJoinSubstitution([color, ""])` and
its `robot_description` parameter is the templating engine's stdout on
the assembled `xacro` command line. -/
def robotStatePublisherNode (share : String) (cmd : String → String)
    (color : String) : ProcessSpec :=
  { package := "robot_state_publisher"
    executable := "robot_state_publisher"
    ns := color
    parameters :=
      [("frame_prefix", pathJoin2 color ""),
       ("robot_description", cmd (xacroCommand share color))]
    arguments := [] }

/-- The viewer candidate node (`rviz2`), with arguments
`["-d", rviz_color, PathJoinSubstitution([share, rviz_color])]`. -/
def rviz2Node (share color : String) : ProcessSpec :=
  { package := "rviz2"
    executable := "rviz2"
    ns := color
    parameters := []
    arguments := ["-d", rviz_color share color,
                  pathJoin2 share (rviz_color share color)] }

/-- Fatal resolution errors of the launch framework. -/
inductive ResolutionError where
  | ConfigurationError (value : String)
deriving Repr, DecidableEq

/-- The four candidate nodes in declaration order. -/
def candidates (share : String) (cmd : String → String)
    (color : String) : List ProcessSpec :=
  [jspGuiNode color, jspNode color,
   robotStatePublisherNode share cmd color, rviz2Node share color]

/-- Resolution of the launch description.  The declarations, conditions
(`IfCondition(EqualsSubstitution(...))`) and candidate order are verbatim
from `generate_launch_description` in the launch file.  Modelled from the
spec: the framework validates a resolved argument against its restricted
`choices` set before any process spec is produced (a violation is a fatal
`ConfigurationError` with no partial output), and drops candidates whose
condition is false from the output sequence. -/
def generate_launch_description (share : String) (cmd : String → String)
    (m : InputMapping) : Except ResolutionError (List ProcessSpec) :=
  if (resolvedArgs m).color ∈ colorChoices then
    Except.ok
      ((if (resolvedArgs m).use_jsp = "gui"
          then [jspGuiNode (resolvedArgs m).color] else []) ++
       (if (resolvedArgs m).use_jsp = "jsp"
          then [jspNode (resolvedArgs m).color] else []) ++
       [robotStatePublisherNode share cmd (resolvedArgs m).color] ++
       (if (resolvedArgs m).use_rviz = "true"
          then [rviz2Node share (resolvedArgs m).color] else []))
  else
    Except.error
      (ResolutionError.ConfigurationError (resolvedArgs m).color)

example :
    generate_launch_description "S" (fun _ => "doc")
      { use_jsp := some "jsp", use_rviz := some "false", color := some "red" } =
    Except.ok
      [jspNode "red", robotStatePublisherNode "S" (fun _ => "doc") "red"] := by
  rfl

example : pathJoin2 "red" "" = "red/" := by decide

example : pathJoin2 "" "" = "" := by decide

example : pathJoin2 "a/" "b" = "a/b" := by decide

example : pathJoin2 "a" "/b" = "/b" := by decide

example : rviz_color "" "purple" = "/config/basic_purple.rviz" := by decide

example :
    generate_launch_description "S" (fun _ => "doc")
      { use_jsp := none, use_rviz := none, color := some "orange" } =
    Except.error (ResolutionError.ConfigurationError "orange") := by
  rfl

/-- Recognizer for the two joint-state candidate processes, by executable
identity. -/
def isJointState (s : ProcessSpec) : Bool :=
  s.package == "joint_state_publisher_gui" ||
    s.package == "joint_state_publisher"

/-- C1 counterexample: even with an empty-string package-share directory,
the `rviz_color` value for the allowed color `"purple"` is not the bare
string `config/basic_purple.rviz` — the share directory and a slash are
prepended by the `SetLaunchConfiguration` substitution list. -/
theorem C1_counterexample :
    rviz_color "" "purple" ≠ "config/basic_purple.rviz" := by
  decide

/-- C1 (amended): for every color in the allowed set, the `rviz_color`
derived value equals the package-share directory followed by the fixed
text `/config/basic_`, the resolved color, and the fixed suffix `.rviz`,
with nothing else prepended or appended. -/
theorem C1_rviz_color_value (share color : String)
    (_h : color ∈ colorChoices) :
    rviz_color share color =
      share ++ "/config/basic_" ++ color ++ ".rviz" := rfl

/-- C1 witness: the amended statement evaluated at a concrete share
directory and the allowed color `"red"`. -/
theorem C1_witness :
    "red" ∈ colorChoices ∧
      rviz_color "/opt/share/nuturtle_description" "red" =
        "/opt/share/nuturtle_description" ++ "/config/basic_" ++ "red" ++
          ".rviz" :=
  ⟨by decide, C1_rviz_color_value "/opt/share/nuturtle_description" "red"
    (by decide)⟩

/-- Every successful resolution emits a sublist of the four candidate
nodes in declaration order. -/
theorem ok_sublist_candidates (share : String) (cmd : String → String)
    (m : InputMapping) (specs : List ProcessSpec)
    (hok : generate_launch_description share cmd m = Except.ok specs) :
    specs.Sublist (candidates share cmd (resolvedArgs m).color) := by
  unfold generate_launch_description at hok
  split at hok
  case isFalse h => exact Except.noConfusion hok
  case isTrue h =>
  rw [Except.ok.injEq] at hok
  subst hok
  unfold candidates
  by_cases h1 : (resolvedArgs m).use_jsp = "gui" <;>
    by_cases h2 : (resolvedArgs m).use_jsp = "jsp" <;>
    by_cases h3 : (resolvedArgs m).use_rviz = "true" <;>
    simp only [h1, h2, h3, if_true, if_false, eq_self_iff_true,
      List.append_nil, List.nil_append, List.cons_append,
      List.singleton_append, ite_true, ite_false] <;>
    repeat'
      first
        | exact List.Sublist.refl _
        | exact List.nil_sublist _
        | apply List.Sublist.cons₂
        | apply List.Sublist.cons

/-- Every candidate node carries the resolved color as its namespace. -/
theorem candidates_ns (share : String) (cmd : String → String)
    (color : String) :
    ∀ s ∈ candidates share cmd color, s.ns = color := by
  intro s hs
  simp [candidates, jspGuiNode, jspNode, robotStatePublisherNode,
    rviz2Node] at hs
  rcases hs with rfl | rfl | rfl | rfl <;> rfl

/-- C2: for `use_jsp = "gui"` exactly the joint-state-GUI spec is
included among the two joint-state candidates; for `"jsp"` exactly the
joint-state-plain spec; for `"none"` neither. -/
theorem C2_use_jsp_selects (share : String) (cmd : String → String)
    (m : InputMapping) (specs : List ProcessSpec)
    (hok : generate_launch_description share cmd m = Except.ok specs) :
    ((resolvedArgs m).use_jsp = "gui" →
        jspGuiNode (resolvedArgs m).color ∈ specs ∧
          jspNode (resolvedArgs m).color ∉ specs) ∧
    ((resolvedArgs m).use_jsp = "jsp" →
        jspNode (resolvedArgs m).color ∈ specs ∧
          jspGuiNode (resolvedArgs m).color ∉ specs) ∧
    ((resolvedArgs m).use_jsp = "none" →
        jspGuiNode (resolvedArgs m).color ∉ specs ∧
          jspNode (resolvedArgs m).color ∉ specs) := by
  unfold generate_launch_description at hok
  split at hok
  case isFalse h => exact Except.noConfusion hok
  case isTrue h =>
  rw [Except.ok.injEq] at hok
  subst hok
  refine ⟨fun h1 => ?_, fun h1 => ?_, fun h1 => ?_⟩ <;>
    by_cases h3 : (resolvedArgs m).use_rviz = "true" <;>
    simp [h1, h3, jspGuiNode, jspNode, robotStatePublisherNode, rviz2Node]

/-- C2 witness: resolution at the concrete override `use_jsp = "gui"`
includes the GUI spec and excludes the plain spec. -/
theorem C2_witness :
    jspGuiNode "purple" ∈
        [jspGuiNode "purple",
         robotStatePublisherNode "S" (fun _ => "doc") "purple",
         rviz2Node "S" "purple"] ∧
      jspNode "purple" ∉
        [jspGuiNode "purple",
         robotStatePublisherNode "S" (fun _ => "doc") "purple",
         rviz2Node "S" "purple"] :=
  (C2_use_jsp_selects "S" (fun _ => "doc")
    { use_jsp := some "gui", use_rviz := none, color := none } _ rfl).1 rfl

/-- C3: the viewer spec is present for `use_rviz = "true"`, absent for
`use_rviz = "false"`, and the state-publisher spec is present in every
successful resolution. -/
theorem C3_use_rviz_gates_viewer (share : String) (cmd : String → String)
    (m : InputMapping) (specs : List ProcessSpec)
    (hok : generate_launch_description share cmd m = Except.ok specs) :
    ((resolvedArgs m).use_rviz = "true" →
        rviz2Node share (resolvedArgs m).color ∈ specs) ∧
    ((resolvedArgs m).use_rviz = "false" →
        rviz2Node share (resolvedArgs m).color ∉ specs) ∧
    robotStatePublisherNode share cmd (resolvedArgs m).color ∈ specs := by
  unfold generate_launch_description at hok
  split at hok
  case isFalse h => exact Except.noConfusion hok
  case isTrue h =>
  rw [Except.ok.injEq] at hok
  subst hok
  refine ⟨fun h3 => ?_, fun h3 => ?_, ?_⟩
  · simp [h3]
  · by_cases h1 : (resolvedArgs m).use_jsp = "gui" <;>
      by_cases h2 : (resolvedArgs m).use_jsp = "jsp" <;>
      simp [h1, h2, h3, jspGuiNode, jspNode, robotStatePublisherNode,
        rviz2Node]
  · simp

/-- C3 witness: resolution at the concrete override `use_rviz = "false"`
omits the viewer spec and keeps the state-publisher spec. -/
theorem C3_witness :
    rviz2Node "S" "purple" ∉
        [jspGuiNode "purple",
         robotStatePublisherNode "S" (fun _ => "doc") "purple"] ∧
      robotStatePublisherNode "S" (fun _ => "doc") "purple" ∈
        [jspGuiNode "purple",
         robotStatePublisherNode "S" (fun _ => "doc") "purple"] :=
  ⟨(C3_use_rviz_gates_viewer "S" (fun _ => "doc")
      { use_jsp := none, use_rviz := some "false", color := none } _
      rfl).2.1 rfl,
   (C3_use_rviz_gates_viewer "S" (fun _ => "doc")
      { use_jsp := none, use_rviz := some "false", color := none } _
      rfl).2.2⟩

/-- C4: for every input mapping (hence every possible string value of
`use_jsp`), a successful resolution includes at most one of the two
joint-state process specs: the `gui` condition and the `jsp` condition
never both hold. -/
theorem C4_at_most_one_joint_state (share : String) (cmd : String → String)
    (m : InputMapping) (specs : List ProcessSpec)
    (hok : generate_launch_description share cmd m = Except.ok specs) :
    specs.countP isJointState ≤ 1 := by
  unfold generate_launch_description at hok
  split at hok
  case isFalse h => exact Except.noConfusion hok
  case isTrue h =>
  rw [Except.ok.injEq] at hok
  subst hok
  by_cases h3 : (resolvedArgs m).use_rviz = "true" <;>
    by_cases h1 : (resolvedArgs m).use_jsp = "gui" <;>
    by_cases h2 : (resolvedArgs m).use_jsp = "jsp" <;>
    simp [h1, h2, h3, List.countP_cons, isJointState,
      jspGuiNode, jspNode, robotStatePublisherNode, rviz2Node]

/-- C4 witness: the bound evaluated at the default input mapping. -/
theorem C4_witness :
    List.countP isJointState
      [jspGuiNode "purple",
       robotStatePublisherNode "S" (fun _ => "doc") "purple",
       rviz2Node "S" "purple"] ≤ 1 :=
  C4_at_most_one_joint_state "S" (fun _ => "doc")
    { use_jsp := none, use_rviz := none, color := none } _ rfl

/-- C5: a resolved color outside the declared `choices` set is a fatal
`ConfigurationError`; the resolution result is the error, so no process
spec at all is produced. -/
theorem C5_invalid_color_rejected (share : String) (cmd : String → String)
    (m : InputMapping) (h : (resolvedArgs m).color ∉ colorChoices) :
    generate_launch_description share cmd m =
      Except.error
        (ResolutionError.ConfigurationError (resolvedArgs m).color) := by
  unfold generate_launch_description
  rw [if_neg h]

/-- C5 witness: the rejection evaluated at the concrete override
`color = "orange"`. -/
theorem C5_witness :
    (resolvedArgs
        { use_jsp := none, use_rviz := none, color := some "orange" }).color ∉
        colorChoices ∧
      generate_launch_description "S" (fun _ => "doc")
        { use_jsp := none, use_rviz := none, color := some "orange" } =
      Except.error
        (ResolutionError.ConfigurationError
          (resolvedArgs
            { use_jsp := none, use_rviz := none,
              color := some "orange" }).color) :=
  ⟨by decide, C5_invalid_color_rejected "S" (fun _ => "doc")
    { use_jsp := none, use_rviz := none, color := some "orange" }
    (by decide)⟩

/-- C6 counterexample: overriding `use_jsp` with a value outside
`{gui, jsp, none}` is not a fatal resolution error — the `use_jsp`
declaration carries no `choices` restriction, so resolution succeeds and
simply includes neither joint-state spec. -/
theorem C6_counterexample :
    generate_launch_description "S" (fun _ => "doc")
      { use_jsp := some "bogus", use_rviz := none, color := none } =
    Except.ok
      [robotStatePublisherNode "S" (fun _ => "doc") "purple",
       rviz2Node "S" "purple"] := by
  rfl

/-- C6 (amended): the `use_jsp` argument is declared without a
restricted allowed-value set; a resolved `use_jsp` outside
`{gui, jsp, none}` does not abort resolution — given a valid color the
resolution succeeds, with neither joint-state spec included. -/
theorem C6_use_jsp_unvalidated (share : String) (cmd : String → String)
    (m : InputMapping)
    (hc : (resolvedArgs m).color ∈ colorChoices)
    (hj : (resolvedArgs m).use_jsp ∉ (["gui", "jsp", "none"] : List String)) :
    generate_launch_description share cmd m =
      Except.ok
        ([robotStatePublisherNode share cmd (resolvedArgs m).color] ++
         (if (resolvedArgs m).use_rviz = "true"
            then [rviz2Node share (resolvedArgs m).color] else [])) := by
  simp only [List.mem_cons, List.mem_singleton, not_or] at hj
  unfold generate_launch_description
  rw [if_pos hc, if_neg hj.1, if_neg hj.2.1]
  simp

/-- C6 witness: the amended statement evaluated at the concrete override
`use_jsp = "bogus"` with everything else defaulted. -/
theorem C6_witness :
    (resolvedArgs
        { use_jsp := some "bogus", use_rviz := none, color := none }).color ∈
        colorChoices ∧
      (resolvedArgs
          { use_jsp := some "bogus", use_rviz := none,
            color := none }).use_jsp ∉ (["gui", "jsp", "none"] : List String) ∧
      generate_launch_description "S" (fun _ => "doc")
        { use_jsp := some "bogus", use_rviz := none, color := none } =
      Except.ok
        ([robotStatePublisherNode "S" (fun _ => "doc") "purple"] ++
         (if (resolvedArgs
                { use_jsp := some "bogus", use_rviz := none,
                  color := none }).use_rviz = "true"
            then [rviz2Node "S" "purple"] else [])) :=
  ⟨by decide, by decide,
   C6_use_jsp_unvalidated "S" (fun _ => "doc")
     { use_jsp := some "bogus", use_rviz := none, color := none }
     (by decide) (by decide)⟩

/-- C7 counterexample: at the allowed color `""` (the empty string), the
state-publisher's `frame_prefix` parameter is the empty string — the
result of `os.path.join("", "")` — and not `"" ++ "/"` as the claim's
`<color>/` rule would require. -/
theorem C7_counterexample :
    List.lookup "frame_prefix"
        (robotStatePublisherNode "S" (fun _ => "doc") "").parameters ≠
      some ("" ++ "/") := by
  decide

/-- C7 (amended): for every nonempty allowed color, the state-publisher
spec's parameters are exactly `frame_prefix = <color>/` and
`robot_description` = the templating engine's stdout on the assembled
`xacro` command line (template path plus `color:=<color>`); for the
allowed color `""` the `frame_prefix` degenerates to `""`. -/
theorem C7_state_publisher_params (share : String) (cmd : String → String)
    (color : String) (hc : color ∈ colorChoices) (hne : color ≠ "") :
    (robotStatePublisherNode share cmd color).parameters =
      [("frame_prefix", color ++ "/"),
       ("robot_description", cmd (xacroCommand share color))] := by
  have hp : pathJoin2 color "" = color ++ "/" := by
    simp [colorChoices] at hc
    rcases hc with rfl | rfl | rfl | rfl | rfl | rfl | rfl | rfl
    · decide
    · decide
    · decide
    · decide
    · decide
    · decide
    · decide
    · exact absurd rfl hne
  simp [robotStatePublisherNode, hp]

/-- C7 witness: the parameter list evaluated at the concrete color
`"red"`. -/
theorem C7_witness :
    "red" ∈ colorChoices ∧ "red" ≠ "" ∧
      (robotStatePublisherNode "S" (fun _ => "doc") "red").parameters =
        [("frame_prefix", "red" ++ "/"),
         ("robot_description",
          (fun _ => "doc") (xacroCommand "S" "red"))] :=
  ⟨by decide, by decide,
   C7_state_publisher_params "S" (fun _ => "doc") "red" (by decide)
     (by decide)⟩

/-- C8: the emitted sequence of a successful resolution is a sublist of
the four candidate specs in declaration order (joint-state-GUI,
joint-state-plain, state-publisher, viewer): order is preserved and
excluded candidates are dropped entirely, never emitted disabled. -/
theorem C8_declaration_order (share : String) (cmd : String → String)
    (m : InputMapping) (specs : List ProcessSpec)
    (hok : generate_launch_description share cmd m = Except.ok specs) :
    specs.Sublist (candidates share cmd (resolvedArgs m).color) :=
  ok_sublist_candidates share cmd m specs hok

/-- C8 witness: the sublist relation evaluated at the default input
mapping. -/
theorem C8_witness :
    List.Sublist
      [jspGuiNode "purple",
       robotStatePublisherNode "S" (fun _ => "doc") "purple",
       rviz2Node "S" "purple"]
      (candidates "S" (fun _ => "doc") "purple") :=
  C8_declaration_order "S" (fun _ => "doc")
    { use_jsp := none, use_rviz := none, color := none } _ rfl

/-- C9: every process spec emitted by a successful resolution has its
namespace equal to the resolved color. -/
theorem C9_namespace_is_color (share : String) (cmd : String → String)
    (m : InputMapping) (specs : List ProcessSpec)
    (hok : generate_launch_description share cmd m = Except.ok specs) :
    ∀ s ∈ specs, s.ns = (resolvedArgs m).color := by
  intro s hs
  exact candidates_ns share cmd (resolvedArgs m).color s
    ((ok_sublist_candidates share cmd m specs hok).subset hs)

/-- C9 witness: the namespace invariant evaluated at the concrete
override `color = "red"` on the GUI joint-state spec. -/
theorem C9_witness :
    (jspGuiNode "red").ns =
      (resolvedArgs
        { use_jsp := none, use_rviz := none, color := some "red" }).color :=
  C9_namespace_is_color "S" (fun _ => "doc")
    { use_jsp := none, use_rviz := none, color := some "red" } _ rfl
    (jspGuiNode "red") (by decide)

/-- C10: the empty string is an accepted color: resolution with a
resolved color `""` succeeds with no `ConfigurationError`, every emitted
spec's namespace is the empty string, and the `rviz_color` value is
built from an empty color segment, yielding the `basic_.rviz` preset
path. -/
theorem C10_empty_color_accepted (share : String) (cmd : String → String)
    (m : InputMapping) (h : (resolvedArgs m).color = "") :
    (∃ specs, generate_launch_description share cmd m = Except.ok specs ∧
        ∀ s ∈ specs, s.ns = "") ∧
      rviz_color share "" = share ++ "/config/basic_.rviz" := by
  have hc : (resolvedArgs m).color ∈ colorChoices := by
    rw [h]; decide
  have hok : generate_launch_description share cmd m =
      Except.ok
        ((if (resolvedArgs m).use_jsp = "gui"
            then [jspGuiNode (resolvedArgs m).color] else []) ++
         (if (resolvedArgs m).use_jsp = "jsp"
            then [jspNode (resolvedArgs m).color] else []) ++
         [robotStatePublisherNode share cmd (resolvedArgs m).color] ++
         (if (resolvedArgs m).use_rviz = "true"
            then [rviz2Node share (resolvedArgs m).color] else [])) := by
    unfold generate_launch_description
    rw [if_pos hc]
  refine ⟨⟨_, hok, ?_⟩, ?_⟩
  · intro s hs
    exact (candidates_ns share cmd (resolvedArgs m).color s
      ((ok_sublist_candidates share cmd m _ hok).subset hs)).trans h
  · simp [rviz_color, String.append_assoc]

/-- C10 witness: the acceptance of the empty color evaluated at the
concrete override `color = ""`. -/
theorem C10_witness :
    (resolvedArgs
        { use_jsp := none, use_rviz := none, color := some "" }).color =
        "" ∧
      ((∃ specs,
          generate_launch_description "S" (fun _ => "doc")
            { use_jsp := none, use_rviz := none, color := some "" } =
            Except.ok specs ∧ ∀ s ∈ specs, s.ns = "") ∧
        rviz_color "S" "" = "S" ++ "/config/basic_.rviz") :=
  ⟨rfl,
   C10_empty_color_accepted "S" (fun _ => "doc")
     { use_jsp := none, use_rviz := none, color := some "" } rfl⟩
